import Mathlib

/-!
Shallow embedding of the lotus-cpr caching read proxy (github.com/iand/lotus-cpr).

The embedding covers the parts of the program the claims speak about:
  * the local persistent tier `DBBlockCache` (src/gonudb.go): `Has`, `Get`
    and the fill protocol `fillFromUpstream`;
  * the HTTP tier `HttpBlockCache` (src/http.go): `Has` and `Get`;
  * the per-tier counters `CacheStats` (src/stats.go), modelled as the
    delta each request applies to the (hits, misses, errors) triple;
  * the RPC proxy methods `ChainReadObj`, `ChainHasObj`, `ChainGetBlock`
    (proxy source, src/unnamed/part_005);
  * the upstream client call gate `apiClient.withApi`
    (client source, src/unnamed/part_005).

External collaborators (the gonudb store, the HTTP client, the upstream
node, the circuit breaker, go-cid hashing) are modelled as explicit
environment fields: each field records the outcome the collaborator would
produce for the one call the embedded code path makes.  Byte slices are
`List Nat`; Go's `nil` slice and empty slice are both `[]`.  Outputs are
instrumented: besides the returned value they record which keys were
passed to the store and whether the upstream / breaker / insert was
actually invoked, so that the claims about "does not insert", "consults
its upstream", "without entering the breaker" are directly statable.
-/

namespace LotusCpr

/-- Go error values that the embedded code paths distinguish.
`transport` and `ioErr` carry a tag so distinct concrete errors exist. -/
inductive GoErr where
  /-- gonudb.ErrKeyNotFound -/
  | keyNotFound : GoErr
  /-- blockstore.ErrNotFound -/
  | notFound : GoErr
  /-- blocks.ErrWrongHash -/
  | wrongHash : GoErr
  /-- ErrLotusUnavailable (src/main.go line 296) -/
  | lotusUnavailable : GoErr
  /-- gonudb duplicate-key insert error -/
  | duplicateKey : GoErr
  /-- an HTTP / RPC transport failure -/
  | transport : Nat → GoErr
  /-- any other I/O error (e.g. a failing ioutil.ReadAll) -/
  | ioErr : Nat → GoErr
  deriving DecidableEq, Repr

/-- go-cid CID value: a prefix tag (version, codec and hash algorithm,
`c.Prefix()`) and the digest bytes. -/
structure Cid where
  pfx : Nat
  digest : List Nat
  deriving DecidableEq, Repr

/-- Model of go-cid `c.String()`: the printable multibase rendering.  It is
determined by (prefix, digest), injective, and never equal to the raw digest
bytes, because the rendering carries a multibase indicator byte and the
prefix information in front of the digest data. -/
def Cid.string (c : Cid) : List Nat := 98 :: c.pfx :: c.digest

/-- Model of go-cid `c.Hash()`: the raw digest bytes of the CID. -/
def Cid.rawDigest (c : Cid) : List Nat := c.digest

/-- go-block-format block: a (cid, bytes) pair; `data` is `blk.RawData()`. -/
structure Block where
  cid : Cid
  data : List Nat
  deriving DecidableEq, Repr

/-- blocks.NewBlockWithCid(data, c): without the library's debug flag it
performs no hash check and always succeeds. -/
def newBlockWithCid (data : List Nat) (c : Cid) : Except GoErr Block :=
  .ok ⟨c, data⟩

/-- CacheStats delta applied by a single request: how much each of the
hits / misses / errors counters (src/stats.go) is incremented. -/
structure StatsDelta where
  hits : Nat
  misses : Nat
  errors : Nat
  deriving DecidableEq, Repr

/-- StatsDelta of a request that increments nothing. -/
def StatsDelta.zero : StatsDelta := ⟨0, 0, 0⟩

/-- StatsDelta of a single stats.Hit(). -/
def StatsDelta.hit : StatsDelta := ⟨1, 0, 0⟩

/-- StatsDelta of a single stats.Miss(). -/
def StatsDelta.miss : StatsDelta := ⟨0, 1, 0⟩

/-- StatsDelta of a single stats.Error(). -/
def StatsDelta.error : StatsDelta := ⟨0, 0, 1⟩

/-! ### Local persistent tier (DBBlockCache, src/gonudb.go) -/

/-- Environment of one `fillFromUpstream` call: the collaborator outcomes
the call would observe. -/
structure FillEnv where
  /-- Result of `d.upstream.Get(ctx, c)`; `none` when no upstream is wired. -/
  upstream : Option (Except GoErr Block)
  /-- go-cid `c.Prefix().Sum(data)`: recompute a CID for candidate bytes
  under a given prefix tag. -/
  sum : Nat → List Nat → Except GoErr Cid
  /-- Result of `d.store.Insert(key, value)`: `none` is success, otherwise
  the insert error (duplicate key, I/O failure, ...). -/
  insertRes : List Nat → List Nat → Option GoErr

/-- Instrumented outcome of `fillFromUpstream`. -/
structure FillOut where
  /-- The (data, error) pair returned to the caller. -/
  ret : Except GoErr (List Nat)
  /-- Whether `upstream.Get` was invoked. -/
  upstreamCalled : Bool
  /-- The (key, value) passed to `store.Insert`, when an insert was issued. -/
  insertCall : Option (List Nat × List Nat)

/-- DBBlockCache.fillFromUpstream (src/gonudb.go lines 105-141).
With no upstream it reports blockstore.ErrNotFound.  Otherwise it gets the
block upstream, recomputes the CID of the data under c's prefix, refuses
with blocks.ErrWrongHash when the recomputed CID differs from c, and
otherwise inserts under the key `c.String()`; an insert error is logged
and dropped, and the data is returned. -/
def fillFromUpstream (env : FillEnv) (c : Cid) : FillOut :=
  match env.upstream with
  | none => ⟨.error .notFound, false, none⟩
  | some (.error e) => ⟨.error e, true, none⟩
  | some (.ok blk) =>
    let data := blk.data
    match env.sum c.pfx data with
    | .error e => ⟨.error e, true, none⟩
    | .ok chkc =>
      if chkc = c then
        -- the result of store.Insert is only logged, never surfaced
        let _ierr := env.insertRes (Cid.string c) data
        ⟨.ok data, true, some (Cid.string c, data)⟩
      else
        ⟨.error .wrongHash, true, none⟩

/-- Environment of one `Has`/`Get` call on the DB tier. -/
structure DbEnv where
  /-- Result of `d.store.FetchReader(key)`: ok gives a reader handle. -/
  fetch : List Nat → Except GoErr Unit
  /-- Result of `ioutil.ReadAll(r)` on the fetched reader. -/
  readAll : Except GoErr (List Nat)
  /-- Value of `d.tlogger.Enabled()`. -/
  traceEnabled : Bool
  /-- Collaborator outcomes for a fill, should one run. -/
  fill : FillEnv

/-- Instrumented outcome of `DBBlockCache.Has`. -/
structure DbHasOut where
  ret : Except GoErr Bool
  stats : StatsDelta
  /-- The key passed to `store.FetchReader`. -/
  fetchKey : List Nat
  /-- Whether `fillFromUpstream` ran. -/
  fillRan : Bool
  upstreamCalled : Bool
  insertCall : Option (List Nat × List Nat)

/-- DBBlockCache.Has (src/gonudb.go lines 34-62).  Fetches under the key
`c.String()`.  On a fetch error the Miss/Error counter increments sit
inside the `tlogger.Enabled()` guard; the tier then fills from upstream
and returns `(data != nil, nil)` on fill success.  On a fetch hit it
increments hits and returns true. -/
def DBBlockCache.Has (env : DbEnv) (c : Cid) : DbHasOut :=
  let cstr := Cid.string c
  match env.fetch cstr with
  | .error err =>
    let d0 : StatsDelta :=
      if env.traceEnabled then
        if err = .keyNotFound then .miss else .error
      else .zero
    let f := fillFromUpstream env.fill c
    match f.ret with
    | .error e => ⟨.error e, d0, cstr, true, f.upstreamCalled, f.insertCall⟩
    | .ok data =>
      ⟨.ok (decide (data ≠ [])), d0, cstr, true, f.upstreamCalled, f.insertCall⟩
  | .ok _ => ⟨.ok true, .hit, cstr, false, false, none⟩

/-- Instrumented outcome of `DBBlockCache.Get` / `HttpBlockCache.Get`. -/
structure GetOut where
  ret : Except GoErr Block
  stats : StatsDelta
  /-- The key passed to `store.FetchReader` (DB tier only; `[]` for HTTP). -/
  fetchKey : List Nat
  fillRan : Bool
  upstreamCalled : Bool
  insertCall : Option (List Nat × List Nat)

/-- DBBlockCache.Get (src/gonudb.go lines 64-99).  Fetches under the key
`c.String()`.  On a fetch error it increments misses (key not found) or
errors (anything else) unconditionally, then fills from upstream.  On a
fetch hit it drains the reader; a ReadAll failure increments errors and is
surfaced; otherwise hits increments and the block is returned. -/
def DBBlockCache.Get (env : DbEnv) (c : Cid) : GetOut :=
  let cstr := Cid.string c
  match env.fetch cstr with
  | .error err =>
    let d0 : StatsDelta := if err = .keyNotFound then .miss else .error
    let f := fillFromUpstream env.fill c
    match f.ret with
    | .error e => ⟨.error e, d0, cstr, true, f.upstreamCalled, f.insertCall⟩
    | .ok data =>
      match newBlockWithCid data c with
      | .error e => ⟨.error e, d0, cstr, true, f.upstreamCalled, f.insertCall⟩
      | .ok blk => ⟨.ok blk, d0, cstr, true, f.upstreamCalled, f.insertCall⟩
  | .ok _ =>
    match env.readAll with
    | .error e => ⟨.error e, .error, cstr, false, false, none⟩
    | .ok buf =>
      match newBlockWithCid buf c with
      | .error e => ⟨.error e, .hit, cstr, false, false, none⟩
      | .ok blk => ⟨.ok blk, .hit, cstr, false, false, none⟩

/-! ### HTTP tier (HttpBlockCache, src/http.go) -/

/-- A completed HTTP response as the tier observes it: the status code and
the outcome of draining its body with ioutil.ReadAll. -/
structure HttpResp where
  statusCode : Nat
  bodyRead : Except GoErr (List Nat)

/-- Environment of one `Has`/`Get` call on the HTTP tier. -/
structure HttpEnv where
  /-- Result of `bc.hc.Head(u)`: the status code, or a transport error. -/
  headRes : Except GoErr Nat
  /-- Result of `bc.hc.Get(u)`. -/
  getRes : Except GoErr HttpResp
  /-- Result of `bc.upstream.Has(ctx, c)`; `none` when no upstream is wired. -/
  upstreamHas : Option (Except GoErr Bool)
  /-- Result of `bc.upstream.Get(ctx, c)`; `none` when no upstream is wired. -/
  upstreamGet : Option (Except GoErr Block)

/-- Instrumented outcome of `HttpBlockCache.Has`. -/
structure HttpHasOut where
  ret : Except GoErr Bool
  stats : StatsDelta
  /-- Whether `upstream.Has` was invoked. -/
  upstreamCalled : Bool

/-- HttpBlockCache.Has (src/http.go lines 41-76).  HEAD on the derived URL.
Transport error: errors increments; with no upstream the error is returned,
otherwise the upstream's Has answer is returned.  Status 200: hits
increments, (true, nil).  Any other status: misses increments; with no
upstream (false, nil), otherwise the upstream's Has answer. -/
def HttpBlockCache.Has (env : HttpEnv) : HttpHasOut :=
  match env.headRes with
  | .error e =>
    match env.upstreamHas with
    | none => ⟨.error e, .error, false⟩
    | some u => ⟨u, .error, true⟩
  | .ok status =>
    if status = 200 then ⟨.ok true, .hit, false⟩
    else
      match env.upstreamHas with
      | none => ⟨.ok false, .miss, false⟩
      | some u => ⟨u, .miss, true⟩

/-- Instrumented outcome of `HttpBlockCache.Get`. -/
structure HttpGetOut where
  ret : Except GoErr Block
  stats : StatsDelta
  /-- Whether `upstream.Get` was invoked. -/
  upstreamCalled : Bool

/-- HttpBlockCache.Get (src/http.go lines 78-119) for CID c.  GET on the
derived URL.  Transport error: errors increments; no upstream surfaces the
error, otherwise delegate to upstream.  Otherwise the body is read first:
a ReadAll failure is returned at once (no counter, no upstream).  Then
status 200 yields a hit and the block; any other status yields a miss and
either blockstore.ErrNotFound (no upstream) or the upstream's answer. -/
def HttpBlockCache.Get (env : HttpEnv) (c : Cid) : HttpGetOut :=
  match env.getRes with
  | .error e =>
    match env.upstreamGet with
    | none => ⟨.error e, .error, false⟩
    | some u => ⟨u, .error, true⟩
  | .ok resp =>
    match resp.bodyRead with
    | .error e => ⟨.error e, .zero, false⟩
    | .ok buf =>
      if resp.statusCode = 200 then
        match newBlockWithCid buf c with
        | .error e => ⟨.error e, .hit, false⟩
        | .ok blk => ⟨.ok blk, .hit, false⟩
      else
        match env.upstreamGet with
        | none => ⟨.error .notFound, .miss, false⟩
        | some u => ⟨u, .miss, true⟩

/-! ### RPC method proxy (Proxy, src/unnamed/part_005 lines 29-296) -/

/-- A decoded chain block header; opaque to the proxy beyond decoding. -/
structure BlockHeader where
  raw : List Nat
  deriving DecidableEq, Repr

/-- Environment of one proxy request: what the cache chain and the upstream
node client would answer. -/
structure ProxyEnv where
  /-- Result of `p.cache.Get(ctx, obj)`. -/
  cacheGet : Except GoErr Block
  /-- Result of `p.cache.Has(ctx, obj)`. -/
  cacheHas : Except GoErr Bool
  /-- Result of `p.node.ChainReadObj(ctx, obj)`. -/
  nodeReadObj : Except GoErr (List Nat)
  /-- Result of `p.node.ChainHasObj(ctx, obj)`. -/
  nodeHasObj : Except GoErr Bool
  /-- types.DecodeBlock on raw block bytes. -/
  decodeBlock : List Nat → Except GoErr BlockHeader

/-- Proxy.ChainReadObj (part_005 lines 156-167): on a cache error the same
request is forwarded to the node client and that answer returned; on cache
success the block's raw bytes are returned.  The Bool records whether the
node client was consulted. -/
def Proxy.ChainReadObj (env : ProxyEnv) : Except GoErr (List Nat) × Bool :=
  match env.cacheGet with
  | .error _ => (env.nodeReadObj, true)
  | .ok blk => (.ok blk.data, false)

/-- Proxy.ChainHasObj (part_005 lines 169-179): on a cache error the same
request is forwarded to the node client and that answer returned. -/
def Proxy.ChainHasObj (env : ProxyEnv) : Except GoErr Bool × Bool :=
  match env.cacheHas with
  | .error _ => (env.nodeHasObj, true)
  | .ok has => (.ok has, false)

/-- Proxy.ChainGetBlock (part_005 lines 85-104): a cache error is returned
to the caller as-is; on cache success the block bytes are decoded and the
decode result returned.  The node client is never consulted. -/
def Proxy.ChainGetBlock (env : ProxyEnv) : Except GoErr BlockHeader × Bool :=
  match env.cacheGet with
  | .error e => (.error e, false)
  | .ok sb => (env.decodeBlock sb.data, false)

/-! ### Upstream client call gate (apiClient.withApi, part_005 lines 432-450) -/

/-- Instrumented outcome of `withApi`. -/
structure WithApiOut where
  /-- The error returned; `none` models a nil error. -/
  ret : Option GoErr
  /-- Whether `a.cb.Do` was invoked. -/
  breakerEntered : Bool
  /-- Whether the wrapped `fn(api)` ran, i.e. the handle was used. -/
  fnCalled : Bool
  deriving DecidableEq, Repr

/-- apiClient.withApi (part_005 lines 432-450).  The handle is read under
the mutex (`api : Option Nat`, `none` when disconnected / breaker open).
A nil handle returns ErrLotusUnavailable at once.  Otherwise the call is
submitted through the circuit breaker: `cbAdmit` says whether the breaker
admits it (running `fn` and propagating its error) or rejects it with its
own error `cbErr`. -/
def apiClient.withApi (api : Option Nat) (cbAdmit : Bool) (cbErr : GoErr)
    (fn : Nat → Option GoErr) : WithApiOut :=
  match api with
  | none => ⟨some .lotusUnavailable, false, false⟩
  | some h =>
    if cbAdmit then ⟨fn h, true, true⟩
    else ⟨some cbErr, true, false⟩

/-! ### Theorems about the claims -/

/-- C1: for every fill by the local persistent tier, after a successful
upstream get returning bytes `blk.data` for requested CID c, the tier
recomputes a CID from c's prefix over the data; if it differs from c the
fill surfaces blocks.ErrWrongHash and issues no store insert for c. -/
theorem fill_wrong_hash_surfaced_no_insert (env : FillEnv) (c : Cid)
    (blk : Block) (chkc : Cid)
    (hu : env.upstream = some (.ok blk))
    (hs : env.sum c.pfx blk.data = .ok chkc)
    (hne : chkc ≠ c) :
    (fillFromUpstream env c).ret = .error .wrongHash ∧
    (fillFromUpstream env c).insertCall = none := by
  simp [fillFromUpstream, hu, hs, hne]

theorem fill_wrong_hash_surfaced_no_insert_witness :
    (fillFromUpstream
        ⟨some (.ok ⟨⟨5, [7, 9]⟩, [1]⟩), fun p d => .ok ⟨p, d⟩, fun _ _ => none⟩
        ⟨5, [7, 9]⟩).ret = .error .wrongHash ∧
    (fillFromUpstream
        ⟨some (.ok ⟨⟨5, [7, 9]⟩, [1]⟩), fun p d => .ok ⟨p, d⟩, fun _ _ => none⟩
        ⟨5, [7, 9]⟩).insertCall = none :=
  fill_wrong_hash_surfaced_no_insert _ _ ⟨⟨5, [7, 9]⟩, [1]⟩ ⟨5, [1]⟩ rfl rfl
    (by decide)

/-- C2 counterexample: the fill code has no zero-length guard.  With an
upstream returning the zero-length block for c₀ = ⟨5, []⟩ (which passes the
integrity check under the embedded hash), the fill DOES issue a store
insert of a zero-length value — the claim says it returns the bytes
without inserting anything. -/
theorem fill_zero_length_still_inserts :
    (fillFromUpstream
        ⟨some (.ok ⟨⟨5, []⟩, []⟩), fun p d => .ok ⟨p, d⟩, fun _ _ => none⟩
        ⟨5, []⟩).insertCall = some (Cid.string ⟨5, []⟩, []) ∧
    (fillFromUpstream
        ⟨some (.ok ⟨⟨5, []⟩, []⟩), fun p d => .ok ⟨p, d⟩, fun _ _ => none⟩
        ⟨5, []⟩).ret = .ok [] :=
  ⟨rfl, rfl⟩

/-- C2 amended: the fill applies no zero-length guard: a zero-length block
that passes the integrity check is passed to the store's insert exactly
like any other block, any insert error is swallowed, and the zero-length
bytes are returned to the caller. -/
theorem fill_zero_length_inserted_and_returned (env : FillEnv) (c : Cid)
    (blk : Block)
    (hu : env.upstream = some (.ok blk))
    (hd : blk.data = [])
    (hs : env.sum c.pfx blk.data = .ok c) :
    (fillFromUpstream env c).ret = .ok [] ∧
    (fillFromUpstream env c).insertCall = some (Cid.string c, []) := by
  rw [hd] at hs
  simp [fillFromUpstream, hu, hs, hd]

theorem fill_zero_length_inserted_and_returned_witness :
    (fillFromUpstream
        ⟨some (.ok ⟨⟨5, []⟩, []⟩), fun p d => .ok ⟨p, d⟩,
          fun _ _ => some .duplicateKey⟩
        ⟨5, []⟩).ret = .ok [] ∧
    (fillFromUpstream
        ⟨some (.ok ⟨⟨5, []⟩, []⟩), fun p d => .ok ⟨p, d⟩,
          fun _ _ => some .duplicateKey⟩
        ⟨5, []⟩).insertCall = some (Cid.string ⟨5, []⟩, []) :=
  fill_zero_length_inserted_and_returned _ _ ⟨⟨5, []⟩, []⟩ rfl rfl rfl

/-- Concrete DB-tier environment whose fetch misses and whose fill
succeeds, used to exhibit which store key the tier computes. -/
def dbKeyEnv : DbEnv :=
  ⟨fun _ => .error .keyNotFound, .ok [], true,
    ⟨some (.ok ⟨⟨5, [7, 9]⟩, [7, 9]⟩), fun p d => .ok ⟨p, d⟩, fun _ _ => none⟩⟩

/-- C3 counterexample: the key the DB tier uses against the store is the
printable string form `c.String()` — both for the lookup and for the fill
insert — and at c₀ = ⟨5, [7, 9]⟩ that key differs from the raw digest
bytes of c₀, so the claim that the store is addressed by raw_digest(c) is
false. -/
theorem db_store_key_differs_from_raw_digest :
    (DBBlockCache.Get dbKeyEnv ⟨5, [7, 9]⟩).fetchKey =
        Cid.string ⟨5, [7, 9]⟩ ∧
    (DBBlockCache.Get dbKeyEnv ⟨5, [7, 9]⟩).insertCall =
        some (Cid.string ⟨5, [7, 9]⟩, [7, 9]) ∧
    Cid.string ⟨5, [7, 9]⟩ ≠ Cid.rawDigest ⟨5, [7, 9]⟩ :=
  ⟨rfl, rfl, by decide⟩

/-- C3 amended: for every CID c the DB tier reads or writes, the key used
against the append-only store is the printable string form `c.String()`
(not the raw digest bytes): has(c), get(c) and the fill insert all address
the store by that same string key. -/
theorem db_store_key_is_printable_form (env : DbEnv) (c : Cid) :
    (DBBlockCache.Has env c).fetchKey = Cid.string c ∧
    (DBBlockCache.Get env c).fetchKey = Cid.string c ∧
    (∀ k v, (fillFromUpstream env.fill c).insertCall = some (k, v) →
      k = Cid.string c) := by
  refine ⟨?_, ?_, ?_⟩
  · rcases hf : env.fetch (Cid.string c) with e | u
    · rcases hr : (fillFromUpstream env.fill c).ret with e2 | data <;>
        simp [DBBlockCache.Has, hf, hr]
    · simp [DBBlockCache.Has, hf]
  · rcases hf : env.fetch (Cid.string c) with e | u
    · rcases hr : (fillFromUpstream env.fill c).ret with e2 | data <;>
        simp [DBBlockCache.Get, newBlockWithCid, hf, hr]
    · rcases hra : env.readAll with e2 | buf <;>
        simp [DBBlockCache.Get, newBlockWithCid, hf, hra]
  · intro k v h
    rcases hup : env.fill.upstream with _ | u
    · simp [fillFromUpstream, hup] at h
    · rcases u with e | blk
      · simp [fillFromUpstream, hup] at h
      · rcases hs : env.fill.sum c.pfx blk.data with e | chkc
        · simp [fillFromUpstream, hup, hs] at h
        · by_cases hc : chkc = c
          · simp [fillFromUpstream, hup, hs, hc] at h
            exact h.1.symm
          · simp [fillFromUpstream, hup, hs, hc] at h

theorem db_store_key_is_printable_form_witness :
    (DBBlockCache.Has dbKeyEnv ⟨5, [7, 9]⟩).fetchKey =
        Cid.string ⟨5, [7, 9]⟩ ∧
    Cid.string ⟨5, [7, 9]⟩ = Cid.string ⟨5, [7, 9]⟩ :=
  ⟨(db_store_key_is_printable_form dbKeyEnv ⟨5, [7, 9]⟩).1,
    (db_store_key_is_printable_form dbKeyEnv ⟨5, [7, 9]⟩).2.2
      (Cid.string ⟨5, [7, 9]⟩) [7, 9] rfl⟩

/-- Concrete HTTP-tier environment with an upstream wired, whose GET
completes (status 200) but whose body read fails. -/
def httpBodyErrEnv : HttpEnv :=
  ⟨.ok 200, .ok ⟨200, .error (.ioErr 3)⟩, some (.ok true),
    some (.ok ⟨⟨5, [7, 9]⟩, [7, 9]⟩)⟩

/-- C4 counterexample: at the HTTP tier with an upstream configured, a
body-read failure on a completed GET is surfaced directly to the caller
without consulting the upstream's get — the claim says every local error,
including a body-read error, falls through to the upstream. -/
theorem http_get_body_read_error_skips_upstream :
    httpBodyErrEnv.upstreamGet.isSome = true ∧
    (HttpBlockCache.Get httpBodyErrEnv ⟨5, [7, 9]⟩).upstreamCalled = false ∧
    (HttpBlockCache.Get httpBodyErrEnv ⟨5, [7, 9]⟩).ret =
      .error (.ioErr 3) :=
  ⟨rfl, rfl, rfl⟩

/-- C4 amended: on a get whose own lookup misses or fails — a transport
error or a non-200 status at the HTTP tier, any store-fetch error at the
DB tier — a tier with an upstream consults its upstream's get before
returning; but a body-read error after a successful HTTP response is
surfaced directly without consulting the upstream. -/
theorem get_miss_or_lookup_error_consults_upstream :
    (∀ (env : HttpEnv) (c : Cid) (e : GoErr) (u : Except GoErr Block),
      env.upstreamGet = some u → env.getRes = .error e →
      (HttpBlockCache.Get env c).upstreamCalled = true ∧
      (HttpBlockCache.Get env c).ret = u) ∧
    (∀ (env : HttpEnv) (c : Cid) (resp : HttpResp) (buf : List Nat)
        (u : Except GoErr Block),
      env.upstreamGet = some u → env.getRes = .ok resp →
      resp.bodyRead = .ok buf → resp.statusCode ≠ 200 →
      (HttpBlockCache.Get env c).upstreamCalled = true ∧
      (HttpBlockCache.Get env c).ret = u) ∧
    (∀ (env : HttpEnv) (c : Cid) (resp : HttpResp) (e : GoErr),
      env.getRes = .ok resp → resp.bodyRead = .error e →
      (HttpBlockCache.Get env c).upstreamCalled = false ∧
      (HttpBlockCache.Get env c).ret = .error e) ∧
    (∀ (env : DbEnv) (c : Cid) (e : GoErr),
      env.fetch (Cid.string c) = .error e →
      env.fill.upstream.isSome = true →
      (DBBlockCache.Get env c).fillRan = true ∧
      (DBBlockCache.Get env c).upstreamCalled = true) := by
  refine ⟨?_, ?_, ?_, ?_⟩
  · intro env c e u hup hget
    constructor <;> simp [HttpBlockCache.Get, hget, hup]
  · intro env c resp buf u hup hget hbody hst
    constructor <;> simp [HttpBlockCache.Get, hget, hbody, hst, hup]
  · intro env c resp e hget hbody
    constructor <;> simp [HttpBlockCache.Get, hget, hbody]
  · intro env c e hf hup
    have hcall : (fillFromUpstream env.fill c).upstreamCalled = true := by
      rcases hu : env.fill.upstream with _ | u
      · rw [hu] at hup; simp at hup
      · rcases u with e2 | blk
        · simp [fillFromUpstream, hu]
        · rcases hs : env.fill.sum c.pfx blk.data with e2 | chkc
          · simp [fillFromUpstream, hu, hs]
          · by_cases hc : chkc = c <;> simp [fillFromUpstream, hu, hs, hc]
    rcases hr : (fillFromUpstream env.fill c).ret with e2 | data <;>
      constructor <;> simp [DBBlockCache.Get, newBlockWithCid, hf, hr, hcall]

theorem get_miss_or_lookup_error_consults_upstream_witness :
    ((HttpBlockCache.Get
        ⟨.ok 200, .error (.transport 7), some (.ok true),
          some (.ok ⟨⟨5, [7, 9]⟩, [7, 9]⟩)⟩
        ⟨5, [7, 9]⟩).upstreamCalled = true ∧
      (HttpBlockCache.Get
        ⟨.ok 200, .error (.transport 7), some (.ok true),
          some (.ok ⟨⟨5, [7, 9]⟩, [7, 9]⟩)⟩
        ⟨5, [7, 9]⟩).ret = .ok ⟨⟨5, [7, 9]⟩, [7, 9]⟩) ∧
    ((DBBlockCache.Get dbKeyEnv ⟨5, [7, 9]⟩).fillRan = true ∧
      (DBBlockCache.Get dbKeyEnv ⟨5, [7, 9]⟩).upstreamCalled = true) :=
  ⟨get_miss_or_lookup_error_consults_upstream.1
      ⟨.ok 200, .error (.transport 7), some (.ok true),
        some (.ok ⟨⟨5, [7, 9]⟩, [7, 9]⟩)⟩
      ⟨5, [7, 9]⟩ (.transport 7) (.ok ⟨⟨5, [7, 9]⟩, [7, 9]⟩) rfl rfl,
    get_miss_or_lookup_error_consults_upstream.2.2.2 dbKeyEnv ⟨5, [7, 9]⟩
      .keyNotFound rfl rfl⟩

/-- DB-tier environment for the counter slip: trace logging disabled, the
store fetch reporting key-not-found, and no upstream wired. -/
def dbNoTraceEnv : DbEnv :=
  ⟨fun _ => .error .keyNotFound, .ok [], false,
    ⟨none, fun p d => .ok ⟨p, d⟩, fun _ _ => none⟩⟩

/-- HTTP-tier environment whose GET completes but whose body read fails,
with no upstream wired. -/
def httpBodyErrNoUpEnv : HttpEnv :=
  ⟨.ok 200, .ok ⟨200, .error (.ioErr 1)⟩, none, none⟩

/-- C5: two served requests that increment no counter at all, contradicting
the invariant that each request increments exactly one of hits, misses,
errors: a DBBlockCache.Has with trace logging disabled whose fetch misses
(the Miss/Error increments sit inside the tlogger.Enabled() guard), and an
HttpBlockCache.Get whose body read fails (the error return skips every
counter). -/
theorem served_request_increments_no_counter :
    (DBBlockCache.Has dbNoTraceEnv ⟨5, [7]⟩).stats = StatsDelta.zero ∧
    (DBBlockCache.Has dbNoTraceEnv ⟨5, [7]⟩).ret = .error .notFound ∧
    (HttpBlockCache.Get httpBodyErrNoUpEnv ⟨5, [7]⟩).stats =
      StatsDelta.zero ∧
    (HttpBlockCache.Get httpBodyErrNoUpEnv ⟨5, [7]⟩).ret =
      .error (.ioErr 1) :=
  ⟨rfl, rfl, rfl, rfl⟩

/-- C6: when the stored API handle is nil (breaker Open), withApi returns
ErrLotusUnavailable immediately, without submitting anything through the
circuit breaker and without the wrapped function ever touching a handle. -/
theorem withApi_nil_handle_unavailable (cbAdmit : Bool) (cbErr : GoErr)
    (fn : Nat → Option GoErr) :
    apiClient.withApi none cbAdmit cbErr fn =
      ⟨some .lotusUnavailable, false, false⟩ :=
  rfl

/-- C7: for every fill in which the integrity check passed but the store
insert fails — with any error, duplicate key included — the failure is not
surfaced: the fill still returns the retrieved bytes to the caller. -/
theorem fill_insert_failure_not_surfaced (env : FillEnv) (c : Cid)
    (blk : Block) (e : GoErr)
    (hu : env.upstream = some (.ok blk))
    (hs : env.sum c.pfx blk.data = .ok c)
    (hins : env.insertRes (Cid.string c) blk.data = some e) :
    (fillFromUpstream env c).ret = .ok blk.data := by
  simp [fillFromUpstream, hu, hs]

theorem fill_insert_failure_not_surfaced_witness :
    (fillFromUpstream
        ⟨some (.ok ⟨⟨5, [7, 9]⟩, [7, 9]⟩), fun p d => .ok ⟨p, d⟩,
          fun _ _ => some .duplicateKey⟩
        ⟨5, [7, 9]⟩).ret = .ok [7, 9] :=
  fill_insert_failure_not_surfaced _ _ ⟨⟨5, [7, 9]⟩, [7, 9]⟩ .duplicateKey
    rfl rfl rfl

/-- C8: on a cache-chain error, ChainReadObj and ChainHasObj do not surface
the error: they forward the same request to the upstream node client and
return that result. -/
theorem proxy_read_has_fall_back_to_node (env : ProxyEnv) (e1 e2 : GoErr)
    (h1 : env.cacheGet = .error e1) (h2 : env.cacheHas = .error e2) :
    Proxy.ChainReadObj env = (env.nodeReadObj, true) ∧
    Proxy.ChainHasObj env = (env.nodeHasObj, true) := by
  constructor <;> simp [Proxy.ChainReadObj, Proxy.ChainHasObj, h1, h2]

theorem proxy_read_has_fall_back_to_node_witness :
    Proxy.ChainReadObj
        ⟨.error .notFound, .error (.transport 2), .ok [7, 9], .ok true,
          fun d => .ok ⟨d⟩⟩ = (.ok [7, 9], true) ∧
    Proxy.ChainHasObj
        ⟨.error .notFound, .error (.transport 2), .ok [7, 9], .ok true,
          fun d => .ok ⟨d⟩⟩ = (.ok true, true) :=
  proxy_read_has_fall_back_to_node
    ⟨.error .notFound, .error (.transport 2), .ok [7, 9], .ok true,
      fun d => .ok ⟨d⟩⟩ .notFound (.transport 2) rfl rfl

/-- C9: on a cache-chain error, ChainGetBlock surfaces that error directly
to the caller and never consults the upstream node client. -/
theorem proxy_getblock_surfaces_cache_error (env : ProxyEnv) (e : GoErr)
    (h : env.cacheGet = .error e) :
    Proxy.ChainGetBlock env = (.error e, false) := by
  simp [Proxy.ChainGetBlock, h]

theorem proxy_getblock_surfaces_cache_error_witness :
    Proxy.ChainGetBlock
        ⟨.error (.transport 4), .ok true, .ok [7, 9], .ok true,
          fun d => .ok ⟨d⟩⟩ = (.error (.transport 4), false) :=
  proxy_getblock_surfaces_cache_error
    ⟨.error (.transport 4), .ok true, .ok [7, 9], .ok true,
      fun d => .ok ⟨d⟩⟩ (.transport 4) rfl

/-- C10: on the HTTP tier with no upstream configured, Has distinguishes
the failure modes: a transport error on the HEAD request yields (false,
that error), while a completed HEAD response with a non-200 status yields
(false, nil) — in the embedding, the error value versus ok false. -/
theorem http_has_no_upstream_failure_modes (env : HttpEnv)
    (hup : env.upstreamHas = none) :
    (∀ e, env.headRes = .error e →
      (HttpBlockCache.Has env).ret = .error e) ∧
    (∀ s, env.headRes = .ok s → s ≠ 200 →
      (HttpBlockCache.Has env).ret = .ok false) := by
  constructor
  · intro e he
    simp [HttpBlockCache.Has, he, hup]
  · intro s hs hne
    simp [HttpBlockCache.Has, hs, hne, hup]

theorem http_has_no_upstream_failure_modes_witness :
    (HttpBlockCache.Has ⟨.error (.transport 9), .ok ⟨200, .ok []⟩,
        none, none⟩).ret = .error (.transport 9) ∧
    (HttpBlockCache.Has ⟨.ok 404, .ok ⟨200, .ok []⟩,
        none, none⟩).ret = .ok false :=
  ⟨(http_has_no_upstream_failure_modes
      ⟨.error (.transport 9), .ok ⟨200, .ok []⟩, none, none⟩ rfl).1
      (.transport 9) rfl,
    (http_has_no_upstream_failure_modes
      ⟨.ok 404, .ok ⟨200, .ok []⟩, none, none⟩ rfl).2 404 rfl (by decide)⟩

end LotusCpr
